import Mathlib

/-!
Verification model of `openprocurement.storage.files` (storage.py).

The Python class `FilesStorage` is shallowly embedded: the filesystem is a
record of finite maps (metadata records, published blobs, temporary blobs),
time is an explicit `now` argument, and external libraries (hashlib.sha1,
libmagic, zipfile, rfc6266, documentservice.get_filename, the HTTP session)
are abstracted as function fields of the configuration or as a response
oracle.  MD5 (hashlib.md5) is implemented concretely, since the default
forbidden-hash set is literally the MD5 digest of empty content.
-/

namespace OPStorage

abbrev Bytes := List Nat

/-! ### MD5 (RFC 1321), bytes to lowercase hex digest -/

def md5K : List Nat :=
  [0xd76aa478, 0xe8c7b756, 0x242070db, 0xc1bdceee,
   0xf57c0faf, 0x4787c62a, 0xa8304613, 0xfd469501,
   0x698098d8, 0x8b44f7af, 0xffff5bb1, 0x895cd7be,
   0x6b901122, 0xfd987193, 0xa679438e, 0x49b40821,
   0xf61e2562, 0xc040b340, 0x265e5a51, 0xe9b6c7aa,
   0xd62f105d, 0x02441453, 0xd8a1e681, 0xe7d3fbc8,
   0x21e1cde6, 0xc33707d6, 0xf4d50d87, 0x455a14ed,
   0xa9e3e905, 0xfcefa3f8, 0x676f02d9, 0x8d2a4c8a,
   0xfffa3942, 0x8771f681, 0x6d9d6122, 0xfde5380c,
   0xa4beea44, 0x4bdecfa9, 0xf6bb4b60, 0xbebfbc70,
   0x289b7ec6, 0xeaa127fa, 0xd4ef3085, 0x04881d05,
   0xd9d4d039, 0xe6db99e5, 0x1fa27cf8, 0xc4ac5665,
   0xf4292244, 0x432aff97, 0xab9423a7, 0xfc93a039,
   0x655b59c3, 0x8f0ccc92, 0xffeff47d, 0x85845dd1,
   0x6fa87e4f, 0xfe2ce6e0, 0xa3014314, 0x4e0811a1,
   0xf7537e82, 0xbd3af235, 0x2ad7d2bb, 0xeb86d391]

def md5S : List Nat :=
  [7, 12, 17, 22, 7, 12, 17, 22, 7, 12, 17, 22, 7, 12, 17, 22,
   5, 9, 14, 20, 5, 9, 14, 20, 5, 9, 14, 20, 5, 9, 14, 20,
   4, 11, 16, 23, 4, 11, 16, 23, 4, 11, 16, 23, 4, 11, 16, 23,
   6, 10, 15, 21, 6, 10, 15, 21, 6, 10, 15, 21, 6, 10, 15, 21]

def wnot (x : Nat) : Nat := Nat.xor x 4294967295

def rotl (x s : Nat) : Nat := (Nat.lor (x <<< s) (x >>> (32 - s))) % 4294967296

def md5Pad (msg : Bytes) : Bytes :=
  let len := msg.length
  let bitLen := len * 8
  let padZeros := (119 - len % 64) % 64
  msg ++ [0x80] ++ List.replicate padZeros 0 ++
    (List.range 8).map (fun i => (bitLen >>> (8 * i)) % 256)

def chunksGo (n : Nat) : Nat → Bytes → List Bytes
  | 0, _ => []
  | _, [] => []
  | fuel + 1, bs => bs.take n :: chunksGo n fuel (bs.drop n)

def chunks (n : Nat) (bs : Bytes) : List Bytes := chunksGo n bs.length bs

def le32 : Bytes → Nat
  | [a, b, c, d] => a + 256 * b + 65536 * c + 16777216 * d
  | _ => 0

def md5Step (M : List Nat) (st : Nat × Nat × Nat × Nat) (i : Nat) :
    Nat × Nat × Nat × Nat :=
  let (A, B, C, D) := st
  let Fg : Nat × Nat :=
    if i < 16 then (Nat.lor (Nat.land B C) (Nat.land (wnot B) D), i)
    else if i < 32 then (Nat.lor (Nat.land D B) (Nat.land (wnot D) C), (5 * i + 1) % 16)
    else if i < 48 then (Nat.xor (Nat.xor B C) D, (3 * i + 5) % 16)
    else (Nat.xor C (Nat.lor B (wnot D)), (7 * i) % 16)
  let F2 := (Fg.1 + A + md5K.getD i 0 + M.getD Fg.2 0) % 4294967296
  (D, (B + rotl F2 (md5S.getD i 0)) % 4294967296, B, C)

def md5Block (st : Nat × Nat × Nat × Nat) (block : Bytes) : Nat × Nat × Nat × Nat :=
  let M := (chunks 4 block).map le32
  let (a, b, c, d) := (List.range 64).foldl (md5Step M) st
  ((st.1 + a) % 4294967296, (st.2.1 + b) % 4294967296,
   (st.2.2.1 + c) % 4294967296, (st.2.2.2 + d) % 4294967296)

def md5Digest (msg : Bytes) : Bytes :=
  let blocks := chunks 64 (md5Pad msg)
  let st := blocks.foldl md5Block (0x67452301, 0xefcdab89, 0x98badcfe, 0x10325476)
  ([st.1, st.2.1, st.2.2.1, st.2.2.2].map
    (fun w => (List.range 4).map (fun i => (w >>> (8 * i)) % 256))).flatten

def hexChar (n : Nat) : Char :=
  if n < 10 then Char.ofNat (48 + n) else Char.ofNat (87 + n)

def byteHex (b : Nat) : List Char := [hexChar (b / 16), hexChar (b % 16)]

def bytesToHex (bs : Bytes) : String := String.mk (bs.map byteHex).flatten

def md5hex (msg : Bytes) : String := bytesToHex (md5Digest msg)

/-- `FilesStorage.compute_md5`: stream the content and return the tagged
digest string.  The Python block-wise read is functionally the digest of the
whole content. -/
def compute_md5 (content : Bytes) : String := "md5:" ++ md5hex content

/-! ### Python string helpers used by the source -/

/-- Scan a character list for the first occurrence of `sep`, returning the
part before it and the part after it. -/
def splitOnceCh (sep : Char) : List Char → Option (List Char × List Char)
  | [] => none
  | c :: rest =>
    if c = sep then some ([], rest)
    else
      match splitOnceCh sep rest with
      | none => none
      | some (a, b) => some (c :: a, b)

/-- Python `s.split(sep, 1)` when it yields two parts (`none` when `sep` is
absent, in which case the Python tuple unpacking raises). -/
def splitOnce (s : String) (sep : Char) : Option (String × String) :=
  (splitOnceCh sep s.data).map (fun p => (String.mk p.1, String.mk p.2))

/-- Python `s.rsplit(sep, 1)` when it yields two parts. -/
def rsplitOnce (s : String) (sep : Char) : Option (String × String) :=
  (splitOnceCh sep s.data.reverse).map
    (fun p => (String.mk p.2.reverse, String.mk p.1.reverse))

/-- Take the rightmost `sep`-free segment of a reversed character list:
returns the segment (still reversed) and, when a separator was found, the
remaining reversed prefix. -/
def breakRight (sep : Char) : List Char → List Char × Option (List Char)
  | [] => ([], none)
  | c :: rest =>
    if c = sep then ([], some rest)
    else
      let (seg, r) := breakRight sep rest
      (c :: seg, r)

def rsplitGo (sep : Char) : Nat → List Char → List (List Char)
  | 0, rcs => [rcs.reverse]
  | k + 1, rcs =>
    match breakRight sep rcs with
    | (seg, none) => [seg.reverse]
    | (seg, some rest) => rsplitGo sep k rest ++ [seg.reverse]

/-- Python `s.rsplit(sep, maxsplit)`. -/
def pyRsplit (s : String) (sep : Char) (maxsplit : Nat) : List String :=
  (rsplitGo sep maxsplit s.data.reverse).map String.mk

/-- Last `n` characters of a string, Python `s[-n:]` (whole string when
shorter than `n`). -/
def suffixStr (s : String) (n : Nat) : String :=
  String.mk (s.data.reverse.take n).reverse

/-- Python `s.upper()` (ASCII, as all compared strings here are). -/
def pyUpper (s : String) : String := String.mk (s.data.map Char.toUpper)

/-- Python `s.lower()`. -/
def pyLower (s : String) : String := String.mk (s.data.map Char.toLower)

/-- Python `s.endswith(suffix)`. -/
def pyEndsWith (s suffix : String) : Bool :=
  s.data.reverse.take suffix.data.length = suffix.data.reverse

/-! ### Data model -/

/-- The exception taxonomy of the Python source: `ContentUploaded`,
`KeyNotFound`, `HashInvalid`, `StorageUploadError` come from
`openprocurement.documentservice.storage`; `ValueError` and `KeyError` are
Python built-ins; `netError` stands for a raised `requests` error. -/
inductive Exc where
  | contentUploaded (uuid : String)
  | keyNotFound (key : String)
  | keyError (k : String)
  | hashInvalid (msg : String)
  | uploadError (msg : String)
  | valueError (msg : String)
  | netError
  deriving DecidableEq

instance {ε α : Type} [DecidableEq ε] [DecidableEq α] :
    DecidableEq (Except ε α) := fun a b =>
  match a, b with
  | .ok x, .ok y =>
    if h : x = y then isTrue (by rw [h]) else isFalse (by simp [h])
  | .error e, .error f =>
    if h : e = f then isTrue (by rw [h]) else isFalse (by simp [h])
  | .ok _, .error _ => isFalse (by simp)
  | .error _, .ok _ => isFalse (by simp)

/-- One entry of the `alternatives` list: `{'created': now_iso, 'filename': filename}`. -/
structure Alt where
  created : String
  filename : String
  deriving DecidableEq

/-- The JSON metadata record.  Optional fields model keys that may be absent
from the Python dict; `alternatives = none` models the key being absent
(distinct from present-and-empty). -/
structure Meta where
  uuid : String
  hash : String
  created : String
  modified : String := ""
  filename : Option String := none
  content_type : Option String := none
  content_disposition : Option String := none
  alternatives : Option (List Alt) := none
  archived : Bool := false
  x_accel_redirect : Option String := none
  deriving DecidableEq

/-- The filesystem under `save_path`, as three finite maps keyed by the
storage key (`uuid_to_file uuid`): the `.meta` record files, the published
blob files, and the `~`-suffixed temporary blob files. -/
structure FS where
  metas : String → Option Meta
  blobs : String → Option Bytes
  tmps : String → Option Bytes

/-- Point update of a map. -/
def upd {α : Type} (f : String → Option α) (k : String) (v : Option α) :
    String → Option α :=
  fun x => if x = k then v else f x

/-- `FilesStorage` configuration (`__init__`).  External libraries are
abstracted as function fields: `sha1` is `hashlib.sha1(...).hexdigest()`,
`magic_from_buffer` is libmagic MIME sniffing, `parse_zip` is
`zipfile.ZipFile` returning the member-name list (`none` on `BadZipfile`),
`get_filename` is `openprocurement.documentservice.storage.get_filename`,
and `build_header` is `rfc6266.build_header` at the configured disposition. -/
structure Config where
  web_root : String
  save_path : String
  secret_key : String
  disposition : String
  forbidden_ext : List String
  forbidden_mime : List String
  forbidden_hash : List String
  replica_apis : List String
  require_replica_upload : Bool
  sha1 : String → String
  magic_from_buffer : Bytes → String
  parse_zip : Bytes → Option (List String)
  get_filename : String → String
  build_header : String → String

/-- Line 38 of storage.py: the forbidden-hash set when no
`files.forbidden_hash` setting is given — the MD5 digest of an empty file. -/
def default_forbidden_hash : List String := ["md5:d41d8cd98f00b204e9800998ecf8427e"]

/-- The multipart upload input: `post_file.filename`, `post_file.type`,
`post_file.file`. -/
structure PostFile where
  filename : String
  type : String
  file : Bytes
  deriving DecidableEq

/-! ### Key derivation and paths -/

/-- `FilesStorage.hash_to_uuid`. -/
def hash_to_uuid (cfg : Config) (md5hash : String) : String :=
  cfg.sha1 (md5hash ++ ":uuid:" ++ cfg.secret_key)

/-- `FilesStorage.uuid_to_file`. -/
def uuid_to_file (cfg : Config) (uuid : String) : String :=
  cfg.sha1 (uuid ++ ":file:" ++ cfg.secret_key)

/-- `FilesStorage.web_location`: web root (or its `.archive` variant) joined
with the two suffix shards and the key. -/
def web_location (cfg : Config) (key : String) (archived : Bool) : String :=
  let root := if archived then cfg.web_root ++ ".archive" else cfg.web_root
  root ++ "/" ++ suffixStr key 2 ++ "/" ++ suffixStr key 4 ++ "/" ++ key

/-! ### Metadata store -/

/-- `FilesStorage.save_meta`: refuse when the record exists and `overwrite`
is false; otherwise stamp `modified = now` and atomically publish the
record. -/
def save_meta (cfg : Config) (st : FS) (uuid : String) (meta : Meta)
    (now : String) (overwrite : Bool) : Except Exc FS :=
  let key := uuid_to_file cfg uuid
  if !overwrite && (st.metas key).isSome then
    .error (.contentUploaded uuid)
  else
    .ok { st with metas := upd st.metas key (some { meta with modified := now }) }

/-- `FilesStorage.read_meta`. -/
def read_meta (cfg : Config) (st : FS) (uuid : String) : Except Exc Meta :=
  match st.metas (uuid_to_file cfg uuid) with
  | none => .error (.keyNotFound uuid)
  | some m => .ok m

/-! ### Content filter -/

/-- Lines 102-104 (and the identical member-name loop of lines 118-121):
`for ext in filename.rsplit('.', 2)[1:]: if ext.upper() in self.forbidden_ext`. -/
def ext_forbidden (cfg : Config) (filename : String) : Bool :=
  ((pyRsplit filename '.' 2).drop 1).any
    (fun e => cfg.forbidden_ext.contains (pyUpper e))

/-- `FilesStorage.check_forbidden`.  The Python function returns `True` on a
match and falls off the end (or `return`s bare) otherwise; both falsy
outcomes are `false` here. -/
def check_forbidden (cfg : Config) (filename content_type : String)
    (content : Bytes) : Bool :=
  if ext_forbidden cfg filename then true
  else if cfg.forbidden_mime.contains (pyLower content_type) then true
  else
    let magic_type := cfg.magic_from_buffer (content.take 2048)
    if cfg.forbidden_mime.contains (pyLower magic_type) then true
    else if pyEndsWith (pyUpper filename) ".ZIP" || content_type = "application/zip"
        || magic_type = "application/zip" then
      match cfg.parse_zip content with
      | none => false
      | some names => names.any (fun nm => ext_forbidden cfg nm)
    else false

/-! ### Replica synchronization -/

/-- What one `session.post` to a replica comes back as: a raised exception
(network error or `raise_for_status` on a non-success status), a success
whose status is not 200 (the body is ignored and the loop just continues),
or a 200 response whose JSON body carries `get_url`. -/
inductive ReplicaResp where
  | raised
  | okNot200
  | ok200 (get_url : String)
  deriving DecidableEq

/-- Events of a replica push, for stating retry behaviour: an attempt (the
`session.post` at a given attempt index for a given replica entry) and a
`sleep(seconds)` call. -/
inductive Ev where
  | post (replica : String) (attempt : Nat)
  | slept (seconds : Nat)
  deriving DecidableEq

/-- The body of one `try:` block of `upload_to_replicas` (lines 150-162):
`.ok true` means the 200 response matched and the loop `break`s, `.ok false`
means no exception but no `break` (non-200 success), `.error e` is the
exception entering the `except` clause.  The tuple unpackings of
`split('?', 1)` and `rsplit('/', 1)` raise `ValueError` when the separator
is absent; a uuid mismatch raises
`ValueError("Salve uuid mismatch, verify secret_key")`. -/
def replica_attempt (uuid : String) : ReplicaResp → Except Exc Bool
  | .raised => .error .netError
  | .okNot200 => .ok false
  | .ok200 body =>
    match splitOnce body '?' with
    | none => .error (.valueError "unpack get_url")
    | some (get_url, _) =>
      match rsplitOnce get_url '/' with
      | none => .error (.valueError "unpack get_host")
      | some (_, replica_uuid) =>
        if uuid ≠ replica_uuid then
          .error (.valueError "Salve uuid mismatch, verify secret_key")
        else .ok true

/-- The `for n in range(max_retry)` loop of `upload_to_replicas` for one
replica: any exception from the attempt body is caught; on the last index it
is re-raised, otherwise the loop sleeps `n + 1` and retries.  Exhausting the
range without a `break` and without an exception returns normally.  `fuel`
is the number of remaining indices (initially `max_retry`). -/
def replica_loop (oracle : Nat → ReplicaResp) (rep uuid : String)
    (max_retry : Nat) : Nat → Nat → Except Exc Unit × List Ev
  | _, 0 => (.ok (), [])
  | n, fuel + 1 =>
    match replica_attempt uuid (oracle n) with
    | .ok true => (.ok (), [.post rep n])
    | .ok false =>
      let r := replica_loop oracle rep uuid max_retry (n + 1) fuel
      (r.1, .post rep n :: r.2)
    | .error e =>
      if max_retry - 1 ≤ n then (.error e, [.post rep n])
      else
        let r := replica_loop oracle rep uuid max_retry (n + 1) fuel
        (r.1, .post rep n :: .slept (n + 1) :: r.2)

/-- `FilesStorage.upload_to_replicas`: run the retry loop for each configured
replica in turn; an exception escaping one loop aborts the whole push.  The
endpoint scheme/credential parsing only shapes the POST target and is
absorbed into the oracle, which maps (replica entry, attempt index) to the
outcome of that `session.post`. -/
def upload_to_replicas (oracle : String → Nat → ReplicaResp)
    (replicas : List String) (uuid : String) (max_retry : Nat) :
    Except Exc Unit × List Ev :=
  match replicas with
  | [] => (.ok (), [])
  | rep :: rest =>
    let r := replica_loop (oracle rep) rep uuid max_retry 0 max_retry
    match r.1 with
    | .error e => (.error e, r.2)
    | .ok _ =>
      let r2 := upload_to_replicas oracle rest uuid max_retry
      (r2.1, r.2 ++ r2.2)

/-! ### Storage engine operations -/

/-- `FilesStorage.register` (lines 170-180): refuse forbidden digests,
derive the identifier, persist a minimal record with `overwrite=False`, and
swallow `ContentUploaded`. -/
def register (cfg : Config) (st : FS) (md5hash : String) (now : String) :
    Except Exc (FS × String) :=
  if cfg.forbidden_hash.contains md5hash then
    .error (.uploadError ("forbidden_file " ++ md5hash))
  else
    let uuid := hash_to_uuid cfg md5hash
    let meta : Meta := { uuid := uuid, hash := md5hash, created := now }
    match save_meta cfg st uuid meta now false with
    | .error (.contentUploaded _) => .ok (st, uuid)
    | .error e => .error e
    | .ok st1 => .ok (st1, uuid)

/-- Lines 192-198 of `FilesStorage.upload`: either derive a fresh identifier
and record from the digest, or load the pre-registered record and check the
digest (Python uses `hmac.compare_digest`, whose result is plain string
equality; the constant-time aspect is not observable here). -/
def upload_resolve (cfg : Config) (st : FS) (md5hash now : String) :
    Option String → Except Exc (String × Meta)
  | none =>
    let uuid := hash_to_uuid cfg md5hash
    .ok (uuid, { uuid := uuid, hash := md5hash, created := now })
  | some uuid =>
    match read_meta cfg st uuid with
    | .error e => .error e
    | .ok meta =>
      if meta.hash ≠ md5hash then
        .error (.hashInvalid (meta.hash ++ "/" ++ md5hash))
      else .ok (uuid, meta)

/-- `FilesStorage.upload` (lines 182-243).  Returns the state as left when
the operation finishes or raises, and the result
`(uuid, md5hash, content_type, filename)` or the exception.  The blob write
(temp file then rename) nets to: blob published at the key, no temp left;
the replica-failure rollback renames the published blob back to the temp
name. -/
def upload (cfg : Config) (oracle : String → Nat → ReplicaResp) (st : FS)
    (pf : PostFile) (uuidArg : Option String) (now : String) :
    FS × Except Exc (String × String × String × String) :=
  let filename := cfg.get_filename pf.filename
  let content_type := pf.type
  let md5hash := compute_md5 pf.file
  if cfg.forbidden_hash.contains md5hash then
    (st, .error (.uploadError ("forbidden_file " ++ md5hash)))
  else
    match upload_resolve cfg st md5hash now uuidArg with
    | .error e => (st, .error e)
    | .ok (uuid, meta) =>
      let key := uuid_to_file cfg uuid
      if (st.blobs key).isSome then
        match read_meta cfg st uuid with
        | .error e => (st, .error e)
        | .ok m =>
          match m.filename with
          | none => (st, .error (.keyError "filename"))
          | some f0 =>
            if f0 ≠ filename then
              let alts := m.alternatives.getD [] ++ [⟨now, filename⟩]
              let m1 := { m with alternatives := some alts }
              match save_meta cfg st uuid m1 now true with
              | .error e => (st, .error e)
              | .ok st1 => (st1, .ok (uuid, md5hash, content_type, filename))
            else
              (st, .ok (uuid, md5hash, content_type, filename))
      else
        if check_forbidden cfg filename content_type pf.file then
          (st, .error (.uploadError ("forbidden_file " ++ md5hash)))
        else
          let meta2 := { meta with
            filename := some filename,
            content_type := some content_type,
            content_disposition := some (cfg.build_header filename) }
          match save_meta cfg st uuid meta2 now true with
          | .error e => (st, .error e)
          | .ok st1 =>
            let st2 : FS := { st1 with
              blobs := upd st1.blobs key (some pf.file),
              tmps := upd st1.tmps key none }
            if cfg.replica_apis.isEmpty then
              (st2, .ok (uuid, md5hash, content_type, filename))
            else
              match (upload_to_replicas oracle cfg.replica_apis uuid 10).1 with
              | .ok _ => (st2, .ok (uuid, md5hash, content_type, filename))
              | .error _ =>
                if cfg.require_replica_upload then
                  let st3 : FS := { st2 with
                    blobs := upd st2.blobs key none,
                    tmps := upd st2.tmps key (some pf.file) }
                  (st3, .error (.uploadError "replica_failed"))
                else
                  (st2, .ok (uuid, md5hash, content_type, filename))

/-- `FilesStorage.get` (lines 245-253): load the record, refuse identifier
mismatch or a blocklisted digest, attach the `X-Accel-Redirect` delivery
location. -/
def get (cfg : Config) (st : FS) (uuid : String) : Except Exc Meta :=
  match read_meta cfg st uuid with
  | .error e => .error e
  | .ok meta =>
    if meta.uuid ≠ uuid then .error (.keyNotFound uuid)
    else if cfg.forbidden_hash.contains meta.hash then .error (.keyNotFound uuid)
    else
      let key := uuid_to_file cfg uuid
      .ok { meta with
        x_accel_redirect := some (web_location cfg key meta.archived) }

/-! ### Concrete instances used by witnesses and counterexamples -/

/-- A concrete configuration: no replicas, identity filename sanitizer, an
injective stand-in for the keyed SHA-1 derivations, a sniffer that reports
plain text, a zip parser that always fails. -/
def cfgW : Config :=
  { web_root := "/files"
    save_path := "/data"
    secret_key := "s"
    disposition := "inline"
    forbidden_ext := ["EXE"]
    forbidden_mime := ["application/x-dosexec"]
    forbidden_hash := default_forbidden_hash
    replica_apis := []
    require_replica_upload := true
    sha1 := fun s => "sha1(" ++ s ++ ")"
    magic_from_buffer := fun _ => "text/plain"
    parse_zip := fun _ => none
    get_filename := fun s => s
    build_header := fun s => "inline; filename=" ++ s }

/-- The empty store. -/
def fs0 : FS := ⟨fun _ => none, fun _ => none, fun _ => none⟩

/-- An oracle for replicas that never answer (`session.post` raises). -/
def oracleDown : String → Nat → ReplicaResp := fun _ _ => .raised

/-- An oracle whose replica always answers 200 with a `get_url` whose last
path segment is a foreign identifier (secret divergence). -/
def oracleMismatch : String → Nat → ReplicaResp :=
  fun _ _ => .ok200 "http://replica/get/OTHER?Signature=x"

/-- `cfgW` with one configured replica (`require_replica_upload` is already
true, the source's default). -/
def cfgC1 : Config := { cfgW with replica_apis := ["replica.example"] }

def pfC1 : PostFile := ⟨"a.txt", "text/plain", [97]⟩

def uuidC1 : String := hash_to_uuid cfgC1 (compute_md5 [97])

/-- A store that already holds content `[99]` (one byte, `"c"`) under its
content-derived identifier, recorded with filename `a.txt`. -/
def uuidC3 : String := hash_to_uuid cfgW (compute_md5 [99])

def keyC3 : String := uuid_to_file cfgW uuidC3

def mC3 : Meta :=
  { uuid := uuidC3
    hash := compute_md5 [99]
    created := "T0"
    modified := "T0"
    filename := some "a.txt"
    content_type := some "text/plain"
    content_disposition := some "inline; filename=a.txt" }

def stC3 : FS :=
  { metas := upd (fun _ => none) keyC3 (some mC3)
    blobs := upd (fun _ => none) keyC3 (some [99])
    tmps := fun _ => none }

/-- A store holding only a pre-registered record whose digest will not match
uploaded content `[97]`. -/
def mC5 : Meta := { uuid := "u5", hash := "md5:00000000000000000000000000000000", created := "T0" }

def stC5 : FS :=
  { metas := upd (fun _ => none) (uuid_to_file cfgW "u5") (some mC5)
    blobs := fun _ => none
    tmps := fun _ => none }

/-- A record for the retrieve checks, stored under identifier `u8`. -/
def mC8 : Meta :=
  { uuid := "u8", hash := "md5:11111111111111111111111111111111", created := "T0",
    filename := some "f.txt" }

def stC8 : FS :=
  { metas := upd (fun _ => none) (uuid_to_file cfgW "u8") (some mC8)
    blobs := fun _ => none
    tmps := fun _ => none }

/-- The event trace of a replica retry loop every attempt of which raises:
a post per attempt, a backoff sleep of `n + 1` after every attempt but the
last. -/
def mmTrace (rep : String) : Nat → Nat → List Ev
  | _, 0 => []
  | n, 1 => [.post rep n]
  | n, fuel + 2 => .post rep n :: .slept (n + 1) :: mmTrace rep (n + 1) (fuel + 1)

/-! ### Helper lemmas -/

theorem string_mk_data (s : String) : String.mk s.data = s := by
  cases s
  rfl

theorem breakRight_not_mem (sep : Char) (cs : List Char) (h : sep ∉ cs) :
    breakRight sep cs = (cs, none) := by
  induction cs with
  | nil => rfl
  | cons c rest ih =>
    have hc : ¬c = sep := fun hh => h (hh ▸ List.mem_cons_self c rest)
    have hr : sep ∉ rest := fun hm => h (List.mem_cons_of_mem c hm)
    simp [breakRight, hc, ih hr]

theorem breakRight_found (sep : Char) (cs r : List Char) (h : sep ∉ cs) :
    breakRight sep (cs ++ sep :: r) = (cs, some r) := by
  induction cs with
  | nil => simp [breakRight]
  | cons c rest ih =>
    have hc : ¬c = sep := fun hh => h (hh ▸ List.mem_cons_self c rest)
    have hr : sep ∉ rest := fun hm => h (List.mem_cons_of_mem c hm)
    simp [breakRight, hc, ih hr]

theorem rsplitGo_step (sep : Char) (k : Nat) (cs r : List Char) (h : sep ∉ cs) :
    rsplitGo sep (k + 1) (cs ++ sep :: r) = rsplitGo sep k r ++ [cs.reverse] := by
  rw [rsplitGo, breakRight_found sep cs r h]

theorem rsplitGo_no_sep (sep : Char) (k : Nat) (cs : List Char) (h : sep ∉ cs) :
    rsplitGo sep k cs = [cs.reverse] := by
  cases k with
  | zero => rfl
  | succ k => rw [rsplitGo, breakRight_not_mem sep cs h]

theorem data_reverse_two (pre s1 s2 : String) :
    (pre ++ "." ++ s1 ++ "." ++ s2).data.reverse =
      s2.data.reverse ++ '.' :: (s1.data.reverse ++ '.' :: pre.data.reverse) := by
  simp [String.data_append]

theorem data_reverse_one (s0 s1 : String) :
    (s0 ++ "." ++ s1).data.reverse = s1.data.reverse ++ '.' :: s0.data.reverse := by
  simp [String.data_append]

theorem pyRsplit_two (pre s1 s2 : String) (h1 : '.' ∉ s1.data) (h2 : '.' ∉ s2.data) :
    pyRsplit (pre ++ "." ++ s1 ++ "." ++ s2) '.' 2 = [pre, s1, s2] := by
  have h1r : ('.' : Char) ∉ s1.data.reverse := by simpa using h1
  have h2r : ('.' : Char) ∉ s2.data.reverse := by simpa using h2
  have e2 : (2 : Nat) = 1 + 1 := rfl
  rw [pyRsplit, data_reverse_two, e2,
    rsplitGo_step '.' 1 s2.data.reverse _ h2r,
    rsplitGo_step '.' 0 s1.data.reverse _ h1r]
  simp [rsplitGo, string_mk_data]

theorem pyRsplit_one (s0 s1 : String) (h0 : '.' ∉ s0.data) (h1 : '.' ∉ s1.data) :
    pyRsplit (s0 ++ "." ++ s1) '.' 2 = [s0, s1] := by
  have h0r : ('.' : Char) ∉ s0.data.reverse := by simpa using h0
  have h1r : ('.' : Char) ∉ s1.data.reverse := by simpa using h1
  have e2 : (2 : Nat) = 1 + 1 := rfl
  rw [pyRsplit, data_reverse_one, e2,
    rsplitGo_step '.' 1 s1.data.reverse _ h1r,
    rsplitGo_no_sep '.' 1 s0.data.reverse h0r]
  simp [string_mk_data]

theorem pyRsplit_no_dot (s : String) (h : '.' ∉ s.data) :
    pyRsplit s '.' 2 = [s] := by
  have hr : ('.' : Char) ∉ s.data.reverse := by simpa using h
  rw [pyRsplit, rsplitGo_no_sep '.' 2 s.data.reverse hr]
  simp [string_mk_data]

theorem replica_loop_all_errors (oracle : Nat → ReplicaResp) (rep uuid : String)
    (mr : Nat) (e : Exc) (h : ∀ k, replica_attempt uuid (oracle k) = .error e) :
    ∀ fuel n, 1 ≤ fuel → n + fuel = mr →
      replica_loop oracle rep uuid mr n fuel = (.error e, mmTrace rep n fuel) := by
  intro fuel
  induction fuel with
  | zero => intro n h1 _; omega
  | succ f ih =>
    intro n _ hsum
    rw [replica_loop, h n]
    cases f with
    | zero =>
      have hle : mr - 1 ≤ n := by omega
      simp [hle, mmTrace]
    | succ f' =>
      have hle : ¬mr - 1 ≤ n := by omega
      have := ih (n + 1) (by omega) (by omega)
      simp [hle, this, mmTrace]

/-! ### Claim theorems -/

/-- C4: for every digest not in the forbidden-digest set, `register` called
twice in succession succeeds both times, both calls return the same
identifier, and the second call never raises (the internal `ContentUploaded`
is swallowed): the state after the first call is returned unchanged by the
second. -/
theorem register_idempotent (cfg : Config) (st : FS) (d now1 now2 : String)
    (hd : d ∉ cfg.forbidden_hash) :
    ∃ st1, register cfg st d now1 = .ok (st1, hash_to_uuid cfg d) ∧
      register cfg st1 d now2 = .ok (st1, hash_to_uuid cfg d) := by
  by_cases h : (st.metas (uuid_to_file cfg (hash_to_uuid cfg d))).isSome = true
  · exact ⟨st, by simp [register, save_meta, hd, h], by simp [register, save_meta, hd, h]⟩
  · refine ⟨{ st with metas := upd st.metas (uuid_to_file cfg (hash_to_uuid cfg d)) (some { uuid := hash_to_uuid cfg d, hash := d, created := now1, modified := now1 }) }, ?_, ?_⟩
    · simp [register, save_meta, hd, h]
    · simp [register, save_meta, hd, upd]

theorem register_idempotent_witness :
    "md5:22222222222222222222222222222222" ∉ cfgW.forbidden_hash ∧
    ∃ st1,
      register cfgW fs0 "md5:22222222222222222222222222222222" "t1" =
        .ok (st1, hash_to_uuid cfgW "md5:22222222222222222222222222222222") ∧
      register cfgW st1 "md5:22222222222222222222222222222222" "t2" =
        .ok (st1, hash_to_uuid cfgW "md5:22222222222222222222222222222222") :=
  ⟨by decide,
    register_idempotent cfgW fs0 "md5:22222222222222222222222222222222" "t1" "t2" (by decide)⟩

/-- C5: an upload against a pre-registered identifier whose stored record
digest differs from the digest of the uploaded content fails with
`HashInvalid` (the spec's HashMismatch) and leaves the store — in
particular the blob map at the storage key — unchanged. -/
theorem upload_hash_mismatch_no_write (cfg : Config)
    (oracle : String → Nat → ReplicaResp) (st : FS) (pf : PostFile)
    (uuid now : String) (m : Meta)
    (hm : st.metas (uuid_to_file cfg uuid) = some m)
    (hne : m.hash ≠ compute_md5 pf.file)
    (hnf : compute_md5 pf.file ∉ cfg.forbidden_hash) :
    upload cfg oracle st pf (some uuid) now =
      (st, .error (.hashInvalid (m.hash ++ "/" ++ compute_md5 pf.file))) ∧
    (upload cfg oracle st pf (some uuid) now).1.blobs (uuid_to_file cfg uuid) =
      st.blobs (uuid_to_file cfg uuid) := by
  have h1 : upload cfg oracle st pf (some uuid) now =
      (st, .error (.hashInvalid (m.hash ++ "/" ++ compute_md5 pf.file))) := by
    simp [upload, upload_resolve, read_meta, hm, hne, hnf]
  exact ⟨h1, by rw [h1]⟩

set_option maxRecDepth 40000 in
theorem upload_hash_mismatch_no_write_witness :
    stC5.metas (uuid_to_file cfgW "u5") = some mC5 ∧
    mC5.hash ≠ compute_md5 [97] ∧
    compute_md5 [97] ∉ cfgW.forbidden_hash ∧
    (upload cfgW oracleDown stC5 ⟨"a.txt", "text/plain", [97]⟩ (some "u5") "T" =
        (stC5, .error (.hashInvalid (mC5.hash ++ "/" ++ compute_md5 [97]))) ∧
      (upload cfgW oracleDown stC5 ⟨"a.txt", "text/plain", [97]⟩ (some "u5") "T").1.blobs
          (uuid_to_file cfgW "u5") =
        stC5.blobs (uuid_to_file cfgW "u5")) :=
  ⟨by decide, by decide, by decide,
    upload_hash_mismatch_no_write cfgW oracleDown stC5 ⟨"a.txt", "text/plain", [97]⟩
      "u5" "T" mC5 (by decide) (by decide) (by decide)⟩

/-- C8: `get` fails with `KeyNotFound` when the loaded record's stored
identifier differs from the requested one or the record's digest is in the
forbidden set; otherwise it returns the stored record with the
`X-Accel-Redirect` delivery location derived from the storage key. -/
theorem get_identifier_and_blocklist_checks (cfg : Config) (st : FS)
    (uuid : String) (m : Meta)
    (hm : st.metas (uuid_to_file cfg uuid) = some m) :
    ((m.uuid ≠ uuid ∨ m.hash ∈ cfg.forbidden_hash) →
      get cfg st uuid = .error (.keyNotFound uuid)) ∧
    (m.uuid = uuid → m.hash ∉ cfg.forbidden_hash →
      get cfg st uuid = .ok { m with x_accel_redirect := some (web_location cfg (uuid_to_file cfg uuid) m.archived) }) := by
  constructor
  · intro h
    by_cases hu : m.uuid = uuid
    · rcases h with h | h
      · exact absurd hu h
      · simp [get, read_meta, hm, hu, h]
    · simp [get, read_meta, hm, hu]
  · intro h1 h2
    simp [get, read_meta, hm, h1, h2]

theorem get_identifier_and_blocklist_checks_witness :
    stC8.metas (uuid_to_file cfgW "u8") = some mC8 ∧
    mC8.uuid = "u8" ∧
    mC8.hash ∉ cfgW.forbidden_hash ∧
    get cfgW stC8 "u8" = .ok { mC8 with x_accel_redirect := some (web_location cfgW (uuid_to_file cfgW "u8") mC8.archived) } :=
  ⟨by decide, by decide, by decide,
    (get_identifier_and_blocklist_checks cfgW stC8 "u8" mC8 (by decide)).2
      (by decide) (by decide)⟩

/-- C6: when the filename or a detected type indicates a zip archive but the
content cannot be parsed as one, the archive-scan step fails open: if none
of the earlier extension, declared-type and sniffed-type checks rejected the
input, `check_forbidden` returns false. -/
theorem corrupt_zip_fail_open (cfg : Config) (filename ct : String)
    (content : Bytes)
    (hext : ext_forbidden cfg filename = false)
    (hct : pyLower ct ∉ cfg.forbidden_mime)
    (hmt : pyLower (cfg.magic_from_buffer (content.take 2048)) ∉ cfg.forbidden_mime)
    (hzip : (pyEndsWith (pyUpper filename) ".ZIP" || ct = "application/zip"
      || cfg.magic_from_buffer (content.take 2048) = "application/zip") = true)
    (hbad : cfg.parse_zip content = none) :
    check_forbidden cfg filename ct content = false := by
  have h := hzip
  simp [check_forbidden, hext, hct, hmt, hbad]

theorem corrupt_zip_fail_open_witness :
    ext_forbidden cfgW "file.zip" = false ∧
    pyLower "application/zip" ∉ cfgW.forbidden_mime ∧
    pyLower (cfgW.magic_from_buffer (([80, 75, 1] : Bytes).take 2048)) ∉ cfgW.forbidden_mime ∧
    (pyEndsWith (pyUpper "file.zip") ".ZIP" || "application/zip" = "application/zip"
      || cfgW.magic_from_buffer (([80, 75, 1] : Bytes).take 2048) = "application/zip") = true ∧
    cfgW.parse_zip [80, 75, 1] = none ∧
    check_forbidden cfgW "file.zip" "application/zip" [80, 75, 1] = false :=
  ⟨by decide, by decide, by decide, by decide, by decide,
    corrupt_zip_fail_open cfgW "file.zip" "application/zip" [80, 75, 1]
      (by decide) (by decide) (by decide) (by decide) (by decide)⟩

set_option maxRecDepth 40000 in
/-- C9: under the default configuration the forbidden-digest set is exactly
the MD5 digest of empty content, so uploading zero-byte content fails with
the forbidden-file error, and so does registering that digest. -/
theorem default_forbidden_hash_blocks_empty (cfg : Config)
    (hd : cfg.forbidden_hash = default_forbidden_hash) :
    (∀ (oracle : String → Nat → ReplicaResp) (st : FS) (pf : PostFile)
        (uuidArg : Option String) (now : String), pf.file = [] →
      upload cfg oracle st pf uuidArg now =
        (st, .error (.uploadError "forbidden_file md5:d41d8cd98f00b204e9800998ecf8427e"))) ∧
    (∀ (st : FS) (now : String),
      register cfg st "md5:d41d8cd98f00b204e9800998ecf8427e" now =
        .error (.uploadError "forbidden_file md5:d41d8cd98f00b204e9800998ecf8427e")) := by
  have hmd5 : compute_md5 [] = "md5:d41d8cd98f00b204e9800998ecf8427e" := by decide
  have hmem : "md5:d41d8cd98f00b204e9800998ecf8427e" ∈ default_forbidden_hash := by decide
  constructor
  · intro oracle st pf uuidArg now hfile
    simp [upload, hfile, hmd5, hd, hmem]
  · intro st now
    simp [register, hd, hmem]

set_option maxRecDepth 40000 in
theorem default_forbidden_hash_blocks_empty_witness :
    cfgW.forbidden_hash = default_forbidden_hash ∧
    upload cfgW oracleDown fs0 ⟨"e.txt", "text/plain", []⟩ none "T" =
      (fs0, .error (.uploadError "forbidden_file md5:d41d8cd98f00b204e9800998ecf8427e")) ∧
    register cfgW fs0 "md5:d41d8cd98f00b204e9800998ecf8427e" "T" =
      .error (.uploadError "forbidden_file md5:d41d8cd98f00b204e9800998ecf8427e") :=
  ⟨rfl,
    (default_forbidden_hash_blocks_empty cfgW rfl).1 oracleDown fs0
      ⟨"e.txt", "text/plain", []⟩ none "T" rfl,
    (default_forbidden_hash_blocks_empty cfgW rfl).2 fs0 "T"⟩

/-- C10: when content already exists at the computed storage key and the
stored record's filename equals the incoming (sanitized) filename, `upload`
writes nothing at all: the state is returned unchanged (so the on-disk
record, its modified stamp and its alternatives are untouched) and the call
succeeds. -/
theorem upload_dedup_same_filename_no_write (cfg : Config)
    (oracle : String → Nat → ReplicaResp) (st : FS) (pf : PostFile)
    (uuidArg : Option String) (now uuid : String) (meta0 m : Meta)
    (hres : upload_resolve cfg st (compute_md5 pf.file) now uuidArg = .ok (uuid, meta0))
    (hnf : compute_md5 pf.file ∉ cfg.forbidden_hash)
    (hblob : (st.blobs (uuid_to_file cfg uuid)).isSome = true)
    (hm : st.metas (uuid_to_file cfg uuid) = some m)
    (hfn : m.filename = some (cfg.get_filename pf.filename)) :
    upload cfg oracle st pf uuidArg now =
      (st, .ok (uuid, compute_md5 pf.file, pf.type, cfg.get_filename pf.filename)) := by
  simp [upload, hres, hnf, hblob, read_meta, hm, hfn]

set_option maxRecDepth 40000 in
theorem upload_dedup_same_filename_no_write_witness :
    upload_resolve cfgW stC3 (compute_md5 [99]) "T1" none = .ok (uuidC3, { uuid := uuidC3, hash := compute_md5 [99], created := "T1" }) ∧
    compute_md5 [99] ∉ cfgW.forbidden_hash ∧
    (stC3.blobs (uuid_to_file cfgW uuidC3)).isSome = true ∧
    stC3.metas (uuid_to_file cfgW uuidC3) = some mC3 ∧
    mC3.filename = some (cfgW.get_filename "a.txt") ∧
    upload cfgW oracleDown stC3 ⟨"a.txt", "text/plain", [99]⟩ none "T1" =
      (stC3, .ok (uuidC3, compute_md5 [99], "text/plain", cfgW.get_filename "a.txt")) :=
  ⟨by decide, by decide, by decide, by decide, by decide,
    upload_dedup_same_filename_no_write cfgW oracleDown stC3 ⟨"a.txt", "text/plain", [99]⟩ none "T1" uuidC3 { uuid := uuidC3, hash := compute_md5 [99], created := "T1" } mC3 (by decide) (by decide) (by decide) (by decide) (by decide)⟩

set_option maxRecDepth 40000 in
/-- C3 (counterexample): in the dedup short-circuit the call returns the
incoming request's filename and declared content type, not the stored
record's descriptive fields: the stored record says `a.txt` / `text/plain`,
yet the call returns `b.txt` / `application/octet-stream`. -/
theorem upload_dedup_returns_incoming_cex :
    mC3.filename = some "a.txt" ∧
    mC3.content_type = some "text/plain" ∧
    (upload cfgW oracleDown stC3 ⟨"b.txt", "application/octet-stream", [99]⟩ none "T1").2 =
      .ok (uuidC3, compute_md5 [99], "application/octet-stream", "b.txt") ∧
    ("b.txt", "application/octet-stream") ≠ ("a.txt", "text/plain") := by
  refine ⟨rfl, rfl, by decide, by decide⟩

/-- C3 (amended): when content already exists at the computed storage key,
`upload` runs no content filter, writes no blob, pushes to no replica; when
the stored record's filename differs from the incoming one it appends
`{now, filename}` to the record's alternatives and persists it with
overwrite (stamping `modified`); and it returns the *incoming* sanitized
filename and declared content type (together with the identifier and
digest), not the stored record's descriptive fields. -/
theorem upload_dedup_diff_filename (cfg : Config)
    (oracle : String → Nat → ReplicaResp) (st : FS) (pf : PostFile)
    (uuidArg : Option String) (now uuid : String) (meta0 m : Meta) (f0 : String)
    (hres : upload_resolve cfg st (compute_md5 pf.file) now uuidArg = .ok (uuid, meta0))
    (hnf : compute_md5 pf.file ∉ cfg.forbidden_hash)
    (hblob : (st.blobs (uuid_to_file cfg uuid)).isSome = true)
    (hm : st.metas (uuid_to_file cfg uuid) = some m)
    (hfn : m.filename = some f0)
    (hdiff : f0 ≠ cfg.get_filename pf.filename) :
    upload cfg oracle st pf uuidArg now =
      ({ st with metas := upd st.metas (uuid_to_file cfg uuid) (some { m with alternatives := some (m.alternatives.getD [] ++ [⟨now, cfg.get_filename pf.filename⟩]), modified := now }) },
        .ok (uuid, compute_md5 pf.file, pf.type, cfg.get_filename pf.filename)) := by
  simp [upload, hres, hnf, hblob, read_meta, hm, hfn, hdiff, save_meta]

set_option maxRecDepth 40000 in
theorem upload_dedup_diff_filename_witness :
    upload_resolve cfgW stC3 (compute_md5 [99]) "T1" none = .ok (uuidC3, { uuid := uuidC3, hash := compute_md5 [99], created := "T1" }) ∧
    compute_md5 [99] ∉ cfgW.forbidden_hash ∧
    (stC3.blobs (uuid_to_file cfgW uuidC3)).isSome = true ∧
    stC3.metas (uuid_to_file cfgW uuidC3) = some mC3 ∧
    mC3.filename = some "a.txt" ∧
    "a.txt" ≠ cfgW.get_filename "b.txt" ∧
    upload cfgW oracleDown stC3 ⟨"b.txt", "application/octet-stream", [99]⟩ none "T1" =
      ({ stC3 with metas := upd stC3.metas (uuid_to_file cfgW uuidC3) (some { mC3 with alternatives := some (mC3.alternatives.getD [] ++ [⟨"T1", cfgW.get_filename "b.txt"⟩]), modified := "T1" }) },
        .ok (uuidC3, compute_md5 [99], "application/octet-stream", cfgW.get_filename "b.txt")) :=
  ⟨by decide, by decide, by decide, by decide, by decide, by decide,
    upload_dedup_diff_filename cfgW oracleDown stC3 ⟨"b.txt", "application/octet-stream", [99]⟩ none "T1" uuidC3 { uuid := uuidC3, hash := compute_md5 [99], created := "T1" } mC3 "a.txt" (by decide) (by decide) (by decide) (by decide) (by decide) (by decide)⟩

set_option maxRecDepth 40000 in
/-- C1 (counterexample): with one unreachable replica and the
replica-required policy enabled, an otherwise-successful upload fails with
`replica_failed` and the blob is renamed back to the temporary name — but a
subsequent `get` of the identifier does not fail with `KeyNotFound`: it
succeeds, because the metadata record remains published. -/
theorem upload_replica_failed_get_still_ok_cex :
    (upload cfgC1 oracleDown fs0 pfC1 none "T").2 = .error (.uploadError "replica_failed") ∧
    (upload cfgC1 oracleDown fs0 pfC1 none "T").1.blobs (uuid_to_file cfgC1 uuidC1) = none ∧
    (upload cfgC1 oracleDown fs0 pfC1 none "T").1.tmps (uuid_to_file cfgC1 uuidC1) = some [97] ∧
    get cfgC1 (upload cfgC1 oracleDown fs0 pfC1 none "T").1 uuidC1 ≠ .error (.keyNotFound uuidC1) ∧
    (match get cfgC1 (upload cfgC1 oracleDown fs0 pfC1 none "T").1 uuidC1 with
      | .ok _ => true
      | .error _ => false) = true := by
  refine ⟨by decide, by decide, by decide, by decide, by decide⟩

/-- C1 (amended): when at least one replica is configured, the
replica-required policy is enabled and the replica push fails, a fresh
upload fails with `replica_failed` and the locally published blob is renamed
back to the non-published temporary name, as claimed — but the metadata
record remains published, so a subsequent retrieve of the identifier
*succeeds*, returning the stored record; it does not fail with `NotFound`. -/
theorem upload_replica_required_rollback (cfg : Config)
    (oracle : String → Nat → ReplicaResp) (st : FS) (pf : PostFile)
    (now uuid key fn : String) (e : Exc)
    (huuid : uuid = hash_to_uuid cfg (compute_md5 pf.file))
    (hkey : key = uuid_to_file cfg uuid)
    (hfn : fn = cfg.get_filename pf.filename)
    (hnf : compute_md5 pf.file ∉ cfg.forbidden_hash)
    (hblob : (st.blobs key).isSome = false)
    (hcf : check_forbidden cfg fn pf.type pf.file = false)
    (hrep : cfg.replica_apis ≠ [])
    (hreq : cfg.require_replica_upload = true)
    (hfail : (upload_to_replicas oracle cfg.replica_apis uuid 10).1 = .error e) :
    ∃ st3 mfull,
      upload cfg oracle st pf none now = (st3, .error (.uploadError "replica_failed")) ∧
      st3.blobs key = none ∧
      st3.tmps key = some pf.file ∧
      st3.metas key = some mfull ∧
      get cfg st3 uuid = .ok { mfull with x_accel_redirect := some (web_location cfg key mfull.archived) } := by
  subst hkey
  subst huuid
  subst hfn
  have hrep' : cfg.replica_apis.isEmpty = false := by
    cases hx : cfg.replica_apis with
    | nil => exact absurd hx hrep
    | cons a l => simp
  refine ⟨{ st with metas := upd st.metas (uuid_to_file cfg (hash_to_uuid cfg (compute_md5 pf.file))) (some { uuid := hash_to_uuid cfg (compute_md5 pf.file), hash := compute_md5 pf.file, created := now, modified := now, filename := some (cfg.get_filename pf.filename), content_type := some pf.type, content_disposition := some (cfg.build_header (cfg.get_filename pf.filename)) }), blobs := upd (upd st.blobs (uuid_to_file cfg (hash_to_uuid cfg (compute_md5 pf.file))) (some pf.file)) (uuid_to_file cfg (hash_to_uuid cfg (compute_md5 pf.file))) none, tmps := upd (upd st.tmps (uuid_to_file cfg (hash_to_uuid cfg (compute_md5 pf.file))) none) (uuid_to_file cfg (hash_to_uuid cfg (compute_md5 pf.file))) (some pf.file) }, { uuid := hash_to_uuid cfg (compute_md5 pf.file), hash := compute_md5 pf.file, created := now, modified := now, filename := some (cfg.get_filename pf.filename), content_type := some pf.type, content_disposition := some (cfg.build_header (cfg.get_filename pf.filename)) }, ?_, ?_, ?_, ?_, ?_⟩
  · simp [upload, upload_resolve, hnf, hblob, hcf, hrep', hreq, hfail, save_meta]
  · simp [upd]
  · simp [upd]
  · simp [upd]
  · simp [get, read_meta, upd, hnf]

set_option maxRecDepth 40000 in
theorem upload_replica_required_rollback_witness :
    compute_md5 [97] ∉ cfgC1.forbidden_hash ∧
    (fs0.blobs (uuid_to_file cfgC1 uuidC1)).isSome = false ∧
    check_forbidden cfgC1 (cfgC1.get_filename "a.txt") "text/plain" [97] = false ∧
    cfgC1.replica_apis ≠ [] ∧
    cfgC1.require_replica_upload = true ∧
    (upload_to_replicas oracleDown cfgC1.replica_apis uuidC1 10).1 = .error .netError ∧
    (∃ st3 mfull, upload cfgC1 oracleDown fs0 pfC1 none "T" = (st3, .error (.uploadError "replica_failed")) ∧ st3.blobs (uuid_to_file cfgC1 uuidC1) = none ∧ st3.tmps (uuid_to_file cfgC1 uuidC1) = some [97] ∧ st3.metas (uuid_to_file cfgC1 uuidC1) = some mfull ∧ get cfgC1 st3 uuidC1 = .ok { mfull with x_accel_redirect := some (web_location cfgC1 (uuid_to_file cfgC1 uuidC1) mfull.archived) }) :=
  ⟨by decide, by decide, by decide, by decide, by decide, by decide,
    upload_replica_required_rollback cfgC1 oracleDown fs0 pfC1 "T" uuidC1 (uuid_to_file cfgC1 uuidC1) (cfgC1.get_filename "a.txt") .netError rfl rfl rfl (by decide) (by decide) (by decide) (by decide) (by decide) (by decide)⟩

set_option maxRecDepth 4000 in
/-- C2 (counterexample): a replica whose 200 response carries a foreign
identifier (uuid mismatch) is *not* aborted immediately: after the mismatch
error at attempt 0 the push sleeps one second and performs a second attempt
(and so on), only propagating the mismatch error after the retry budget. -/
theorem replica_uuid_mismatch_retried_cex :
    replica_attempt "UUID" (oracleMismatch "rep" 0) =
      .error (.valueError "Salve uuid mismatch, verify secret_key") ∧
    (upload_to_replicas oracleMismatch ["rep"] "UUID" 10).2.take 4 =
      [.post "rep" 0, .slept 1, .post "rep" 1, .slept 2] ∧
    (upload_to_replicas oracleMismatch ["rep"] "UUID" 10).1 =
      .error (.valueError "Salve uuid mismatch, verify secret_key") := by
  refine ⟨by decide, by decide, by decide⟩

/-- C2 (amended): an error raised during a replica attempt — including the
identifier-mismatch `ValueError`, which the broad `except` clause catches
like any other failure — is retried: with a single replica whose every
attempt raises the same error, the push posts at every attempt index,
sleeping `attempt + 1` between consecutive attempts, and propagates the
error only from the final attempt (as `mmTrace` makes explicit); it never
aborts early. -/
theorem replica_error_retry_policy (oracle : String → Nat → ReplicaResp)
    (rep uuid : String) (max_retry : Nat) (e : Exc)
    (h : ∀ k, replica_attempt uuid (oracle rep k) = .error e)
    (hmr : 1 ≤ max_retry) :
    upload_to_replicas oracle [rep] uuid max_retry =
      (.error e, mmTrace rep 0 max_retry) := by
  have hl := replica_loop_all_errors (oracle rep) rep uuid max_retry e h max_retry 0 hmr
    (by omega)
  simp [upload_to_replicas, hl]

theorem replica_error_retry_policy_witness :
    (1 ≤ 3) ∧
    upload_to_replicas oracleMismatch ["rep"] "UUID" 3 =
      (.error (.valueError "Salve uuid mismatch, verify secret_key"), mmTrace "rep" 0 3) :=
  ⟨by decide,
    replica_error_retry_policy oracleMismatch "rep" "UUID" 3
      (.valueError "Salve uuid mismatch, verify secret_key") (fun _ => rfl) (by decide)⟩

/-- C7: the extension check examines exactly the up-to-two rightmost
dot-separated filename segments: a dot-free name is never rejected; a
one-dot name is rejected iff its single extension, uppercased, is in the
forbidden set; a name with two or more dots is rejected iff one of the two
rightmost segments, uppercased, is in the set — regardless of the prefix,
which may itself contain dots and forbidden extensions. -/
theorem ext_check_last_two_segments (cfg : Config) :
    (∀ s : String, '.' ∉ s.data → ext_forbidden cfg s = false) ∧
    (∀ s0 s1 : String, '.' ∉ s0.data → '.' ∉ s1.data →
      (ext_forbidden cfg (s0 ++ "." ++ s1) = true ↔ pyUpper s1 ∈ cfg.forbidden_ext)) ∧
    (∀ pre s1 s2 : String, '.' ∉ s1.data → '.' ∉ s2.data →
      (ext_forbidden cfg (pre ++ "." ++ s1 ++ "." ++ s2) = true ↔
        pyUpper s1 ∈ cfg.forbidden_ext ∨ pyUpper s2 ∈ cfg.forbidden_ext)) := by
  refine ⟨?_, ?_, ?_⟩
  · intro s h
    simp [ext_forbidden, pyRsplit_no_dot s h]
  · intro s0 s1 h0 h1
    simp [ext_forbidden, pyRsplit_one s0 s1 h0 h1]
  · intro pre s1 s2 h1 h2
    simp [ext_forbidden, pyRsplit_two pre s1 s2 h1 h2]

theorem ext_check_last_two_segments_witness :
    ('.' ∉ "a".data) ∧ ('.' ∉ "b".data) ∧
    (ext_forbidden cfgW ("evil.exe" ++ "." ++ "a" ++ "." ++ "b") = true ↔
      pyUpper "a" ∈ cfgW.forbidden_ext ∨ pyUpper "b" ∈ cfgW.forbidden_ext) :=
  ⟨by decide, by decide,
    (ext_check_last_two_segments cfgW).2.2 "evil.exe" "a" "b" (by decide) (by decide)⟩

end OPStorage
